import Mathlib

/-!
Verification of the clip harvesting pipeline implemented in `src/main.py`
("Farm Bot").  The script discovers Twitch clips for a configured creator
list, filters them by a view-count threshold, ranks them by view count,
truncates to a batch limit, downloads each survivor (plus optional YouTube
slices), ensures a Drive folder hierarchy and uploads the downloaded files.

The embedding below models each stage as a pure function over explicit
oracles for the external world (platform responses, download and upload
outcomes, Drive state).  Machine integers are `Nat`/`Int`; fallible stages
return `Except`/`Option`; exception propagation in Python loops is modelled
by an early return carrying the point of failure.
-/

namespace FarmBot

/-- Fixed label for the first folder segment (`TARGET_ROOT` in `main.py`). -/
def TARGET_ROOT : String := "The Farm"

/-- Fixed label for the second folder segment (`TARGET_INBOUND` in `main.py`). -/
def TARGET_INBOUND : String := "Inbound"

/-- Default batch limit (`CLIP_LIMIT = int(os.getenv("CLIP_LIMIT", 12))`). -/
def defaultClipLimit : Nat := 12

/-- Default view threshold (`VIEW_THRESHOLD = int(os.getenv("VIEW_THRESHOLD", 800))`). -/
def defaultViewThreshold : Int := 800

/-- A clip record as returned by the `helix/clips` endpoint, before the
pipeline annotates it.  `view_count` is `Option` because the JSON record may
lack the field: `main.py` reads it with `clip.get('view_count', 0)` in the
filter (line 116) and with `x['view_count']` (no default) in the sort key
(line 119). -/
structure RawClip where
  cid : String
  url : String
  view_count : Option Nat
deriving DecidableEq, Repr

/-- A clip after discovery has attached `clip['broadcaster_display'] = display`
(line 117 of `main.py`). -/
structure Clip where
  cid : String
  url : String
  view_count : Option Nat
  broadcaster_display : String
deriving DecidableEq, Repr

/-- Attach the owning creator's display name (line 117 of `main.py`). -/
def annotate (display : String) (c : RawClip) : Clip :=
  { cid := c.cid, url := c.url, view_count := c.view_count,
    broadcaster_display := display }

/-- The view count as the code's filter reads it: `clip.get('view_count', 0)`. -/
def viewD (c : Clip) : Nat := c.view_count.getD 0

/-- The inclusion predicate of line 116:
`clip.get('view_count', 0) >= VIEW_THRESHOLD`.  The threshold is an `Int`
because `int(os.getenv(...))` may parse any integer. -/
def keepClip (thr : Int) (c : Clip) : Bool :=
  decide (thr ≤ ((viewD c : Nat) : Int))

/-- Same predicate on a raw (not yet annotated) clip record. -/
def keepRaw (thr : Int) (c : RawClip) : Bool :=
  decide (thr ≤ ((c.view_count.getD 0 : Nat) : Int))

/-- Oracle for the Twitch Helix endpoints used by discovery:
`users login` is the `helix/users` lookup (line 94), returning the user id and
display name of the first record, or `none` when the response `data` is empty;
`clipsFor uid` is the `data` array of the `helix/clips` response for that
broadcaster (lines 105-114; the request window and the `first: 20` page size
are the server's concern and are folded into the oracle). -/
structure TwitchAPI where
  users : String → Option (String × String)
  clipsFor : String → List RawClip

/-- Discovery plus per-clip filtering, lines 92-118 of `main.py`: for each
configured login, resolve it (skipping, with a warning, logins that resolve to
no user), fetch its clips, keep those meeting the threshold and annotate them
with the display name. -/
def collectClips (api : TwitchAPI) (thr : Int) (creators : List String) : List Clip :=
  List.foldl
    (fun acc login =>
      match api.users login with
      | none => acc
      | some ud => acc ++ ((api.clipsFor ud.1).filter (keepRaw thr)).map (annotate ud.2))
    [] creators

/-- The threshold filter of line 116, applied to a pool of candidates. -/
def filterClips (thr : Int) (pool : List Clip) : List Clip :=
  pool.filter (keepClip thr)

/-- Stable insertion of a clip into a list sorted by view count descending:
`x` is placed after every element with a strictly larger key and before the
first element whose key is at most `viewD x`.  Elements already in the list
with an equal key therefore stay in front only if their key is larger, which
gives exactly the stable behaviour of Python's `sorted`. -/
def insertClipDesc (x : Clip) : List Clip → List Clip
  | [] => [x]
  | y :: ys => if viewD x < viewD y then y :: insertClipDesc x ys else x :: y :: ys

/-- Stable descending sort by view count.  `sorted(clips, key=lambda x:
x['view_count'], reverse=True)` in line 119 of `main.py` is a stable sort on
the same key with larger keys first; a stable sort for a given key order is
unique, so this insertion sort computes the same list. -/
def sortClipsDesc : List Clip → List Clip
  | [] => []
  | x :: xs => insertClipDesc x (sortClipsDesc xs)

/-- The ranking and truncation of line 119:
`sorted(clips, key=lambda x: x['view_count'], reverse=True)[:CLIP_LIMIT]`.
The sort key `x['view_count']` uses no default, so a clip lacking the field
raises an uncaught `KeyError`, modelled by `Except.error ()`. -/
def rankClips (limit : Nat) (pool : List Clip) : Except Unit (List Clip) :=
  if pool.all (fun c => c.view_count.isSome) then
    Except.ok ((sortClipsDesc pool).take limit)
  else
    Except.error ()

/-- Selection as a whole: the inclusion filter of line 116 followed by the
ranking and truncation of line 119. -/
def selectClips (thr : Int) (limit : Nat) (pool : List Clip) : Except Unit (List Clip) :=
  rankClips limit (filterClips thr pool)

/-- Output filename for a selected clip (line 125 of `main.py`):
`f"{clip['broadcaster_display']}-{clip['id']}.mp4"`. -/
def fileNameOf (c : Clip) : String :=
  c.broadcaster_display ++ "-" ++ c.cid ++ ".mp4"

/-- The clip download loop, lines 124-132 of `main.py`.  `dlFails` is the
oracle saying whether the external `yt-dlp` invocation for a clip raises
`CalledProcessError`.  The `except` clause only logs, so a failing clip is
skipped and the loop continues with the next one. -/
def downloadClips (dlFails : Clip → Bool) : List Clip → List String
  | [] => []
  | c :: cs =>
    if dlFails c then downloadClips dlFails cs
    else fileNameOf c :: downloadClips dlFails cs

/-- The supplementary (YouTube) download loop, lines 133-144 of `main.py`.
`ytResult v` abstracts the random slice offset, the random output name and
the success or failure of the fetch: `some name` means the fetch produced a
file with that name, `none` means the attempt raised and was logged. -/
def downloadVods (ytResult : String → Option String) : List String → List String
  | [] => []
  | v :: vs =>
    match ytResult v with
    | some f => f :: downloadVods ytResult vs
    | none => downloadVods ytResult vs

/-- The upload loop, lines 169-176 of `main.py`.  There is no `try`/`except`
around `f.Upload()`, so the first failing upload propagates and ends the loop;
the result is the list of files uploaded before the failure together with the
name of the file whose upload raised (`none` when every upload succeeded). -/
def uploadFiles (upFails : String → Bool) : List String → List String × Option String
  | [] => ([], none)
  | f :: fs =>
    if upFails f then ([], some f)
    else
      let rest := uploadFiles upFails fs
      (f :: rest.1, rest.2)

/-- One folder in the modelled Drive backend. -/
structure Folder where
  fid : Nat
  name : String
  parent : Nat
  trashed : Bool
deriving DecidableEq, Repr

/-- The Drive backend state: the folders that exist plus the next identifier
the backend will assign to a created folder. -/
structure DriveState where
  folders : List Folder
  nextId : Nat
deriving DecidableEq, Repr

/-- The name filter that `ensure_folder`'s query actually sends.  In
`main.py` (lines 71-74) the query is built from two adjacent string literals;
only the first is an f-string, so in the second fragment
`"and name='{title}' and trashed=false"` the placeholder is NOT interpolated:
the query searches for a folder literally named `{title}`. -/
def folderQueryName : String := "\x7btitle\x7d"

/-- The Drive-folder helper `ensure_folder(drive, title, parent_id)` of lines
70-84 of `main.py`: list the non-trashed folder children of `parent` whose
name matches the query's name filter (the literal text `{title}`, see
`folderQueryName`); if any is found return its id, otherwise create a folder
named `title` under `parent` and return the fresh id. -/
def ensure_folder (st : DriveState) (title : String) (parent : Nat) : Nat × DriveState :=
  let found := st.folders.filter
    (fun f => f.parent == parent && f.name == folderQueryName && !f.trashed)
  match found with
  | f :: _ => (f.fid, st)
  | [] =>
    let newId := st.nextId
    (newId,
     { folders := st.folders ++ [{ fid := newId, name := title, parent := parent, trashed := false }],
       nextId := newId + 1 })

/-- The destination path resolution of lines 163-165 of `main.py`:
`ensure_folder` applied in sequence for the fixed label, the fixed sub-label
and the date stamp, threading the Drive state; returns the leaf id and the
final state. -/
def resolveDest (st : DriveState) (rootId : Nat) (todayStr : String) : Nat × DriveState :=
  let farm := ensure_folder st TARGET_ROOT rootId
  let inbound := ensure_folder farm.2 TARGET_INBOUND farm.1
  ensure_folder inbound.2 todayStr inbound.1

/-- Observable outcome of the post-selection part of a run (lines 122-176 of
`main.py`).  `deliveryInput = none` means the run returned early at
`if not downloaded` (line 146) before any Drive call; otherwise it carries the
file list handed to the upload loop. -/
structure RunReport where
  deliveryInput : Option (List String)
  driveFinal : DriveState
  dateFolderId : Option Nat
  uploaded : List String
  uploadAborted : Option String
deriving DecidableEq, Repr

/-- The driver for sections 5 and 6 of `main.py` (lines 122-176): download the
selected clips and the supplementary slices, return early when nothing was
downloaded, otherwise resolve the destination folders and run the upload
loop. -/
def runDeliverStages (dlFails : Clip → Bool) (ytResult : String → Option String)
    (upFails : String → Bool) (rootId : Nat) (todayStr : String)
    (st0 : DriveState) (clips : List Clip) (yts : List String) : RunReport :=
  let downloaded := downloadClips dlFails clips ++ downloadVods ytResult yts
  if downloaded.isEmpty then
    { deliveryInput := none, driveFinal := st0, dateFolderId := none,
      uploaded := [], uploadAborted := none }
  else
    let dest := resolveDest st0 rootId todayStr
    let up := uploadFiles upFails downloaded
    { deliveryInput := some downloaded, driveFinal := dest.2,
      dateFolderId := some dest.1, uploaded := up.1, uploadAborted := up.2 }

/-! ### Lemmas about the stable descending sort -/

theorem mem_insertClipDesc {a x : Clip} :
    ∀ {l : List Clip}, a ∈ insertClipDesc x l ↔ a = x ∨ a ∈ l
  | [] => by simp [insertClipDesc]
  | y :: ys => by
    by_cases hxy : viewD x < viewD y
    · simp only [insertClipDesc, if_pos hxy, List.mem_cons,
        mem_insertClipDesc (l := ys)]
      tauto
    · simp [insertClipDesc, hxy, List.mem_cons]

theorem perm_insertClipDesc (x : Clip) :
    ∀ l : List Clip, (insertClipDesc x l).Perm (x :: l)
  | [] => List.Perm.refl _
  | y :: ys => by
    by_cases hxy : viewD x < viewD y
    · simpa [insertClipDesc, hxy] using
        (((perm_insertClipDesc x ys).cons y).trans (List.Perm.swap x y ys))
    · simp [insertClipDesc, hxy]

theorem perm_sortClipsDesc : ∀ l : List Clip, (sortClipsDesc l).Perm l
  | [] => List.Perm.refl _
  | x :: xs =>
    (perm_insertClipDesc x (sortClipsDesc xs)).trans ((perm_sortClipsDesc xs).cons x)

theorem pairwise_ge_insertClipDesc (x : Clip) :
    ∀ {l : List Clip}, (l.Pairwise fun a b => viewD b ≤ viewD a) →
      ((insertClipDesc x l).Pairwise fun a b => viewD b ≤ viewD a)
  | [], _ => by simp [insertClipDesc]
  | y :: ys, h => by
    rw [List.pairwise_cons] at h
    by_cases hxy : viewD x < viewD y
    · rw [insertClipDesc, if_pos hxy, List.pairwise_cons]
      refine ⟨?_, pairwise_ge_insertClipDesc x h.2⟩
      intro b hb
      rcases mem_insertClipDesc.mp hb with rfl | hb'
      · exact Nat.le_of_lt hxy
      · exact h.1 b hb'
    · rw [insertClipDesc, if_neg hxy, List.pairwise_cons]
      refine ⟨?_, List.pairwise_cons.mpr h⟩
      intro b hb
      rcases List.mem_cons.mp hb with rfl | hb'
      · exact Nat.le_of_not_lt hxy
      · exact le_trans (h.1 b hb') (Nat.le_of_not_lt hxy)

theorem pairwise_ge_sortClipsDesc :
    ∀ l : List Clip, (sortClipsDesc l).Pairwise fun a b => viewD b ≤ viewD a
  | [] => List.Pairwise.nil
  | x :: xs => pairwise_ge_insertClipDesc x (pairwise_ge_sortClipsDesc xs)

theorem filter_view_insertClipDesc (x : Clip) (v : Nat) :
    ∀ l : List Clip, (insertClipDesc x l).filter (fun c => viewD c == v) =
      if viewD x = v then x :: l.filter (fun c => viewD c == v)
      else l.filter (fun c => viewD c == v)
  | [] => by
    by_cases h : viewD x = v <;> simp [insertClipDesc, List.filter_cons, h]
  | y :: ys => by
    have ih := filter_view_insertClipDesc x v ys
    by_cases hxy : viewD x < viewD y
    · rw [insertClipDesc, if_pos hxy, List.filter_cons, ih]
      by_cases hxv : viewD x = v
      · have hyv : ¬ viewD y = v := by omega
        simp [List.filter_cons, hxv, hyv]
      · by_cases hyv : viewD y = v <;> simp [List.filter_cons, hxv, hyv]
    · rw [insertClipDesc, if_neg hxy, List.filter_cons, List.filter_cons]
      by_cases hxv : viewD x = v <;> by_cases hyv : viewD y = v <;>
        simp [List.filter_cons, hxv, hyv]

theorem filter_view_sortClipsDesc (v : Nat) :
    ∀ l : List Clip, (sortClipsDesc l).filter (fun c => viewD c == v) =
      l.filter (fun c => viewD c == v)
  | [] => rfl
  | x :: xs => by
    rw [sortClipsDesc, filter_view_insertClipDesc, List.filter_cons,
      filter_view_sortClipsDesc v xs]
    by_cases h : viewD x = v <;> simp [h]

/-! ### Lemmas about selection -/

theorem mem_filterClips {thr : Int} {c : Clip} {pool : List Clip} :
    c ∈ filterClips thr pool ↔ c ∈ pool ∧ thr ≤ ((viewD c : Nat) : Int) := by
  simp [filterClips, List.mem_filter, keepClip]

theorem selectClips_eq_ok {thr : Int} {limit : Nat} {pool out : List Clip}
    (h : selectClips thr limit pool = Except.ok out) :
    (∀ c ∈ filterClips thr pool, c.view_count.isSome = true) ∧
      out = (sortClipsDesc (filterClips thr pool)).take limit := by
  unfold selectClips rankClips at h
  split at h
  case isTrue hall =>
    rw [Except.ok.injEq] at h
    refine ⟨?_, h.symm⟩
    intro c hc
    exact List.all_eq_true.mp hall c hc
  case isFalse =>
    exact absurd h (by simp)

theorem selectClips_ok_of_all_some {thr : Int} {limit : Nat} {pool : List Clip}
    (h : ∀ c ∈ filterClips thr pool, c.view_count.isSome = true) :
    selectClips thr limit pool =
      Except.ok ((sortClipsDesc (filterClips thr pool)).take limit) := by
  unfold selectClips rankClips
  rw [if_pos (List.all_eq_true.mpr h)]

theorem selectClips_error_of_missing {thr : Int} {limit : Nat} {pool : List Clip}
    {c : Clip} (hc : c ∈ filterClips thr pool) (hnone : c.view_count = none) :
    selectClips thr limit pool = Except.error () := by
  unfold selectClips rankClips
  rw [if_neg]
  intro hall
  have := List.all_eq_true.mp hall c hc
  rw [hnone] at this
  exact absurd this (by simp)

/-! ### Lemmas about acquisition -/

theorem downloadClips_eq (dlFails : Clip → Bool) :
    ∀ l : List Clip,
      downloadClips dlFails l = (l.filter fun c => !dlFails c).map fileNameOf
  | [] => rfl
  | c :: cs => by
    by_cases h : dlFails c <;>
      simp [downloadClips, h, downloadClips_eq dlFails cs, List.filter_cons]

/-! ### Concrete inputs used by the witnesses and counterexamples -/

/-- Scenario clips: view counts 900, 700 and 1500. -/
def sA : Clip := ⟨"c1", "https://clips.twitch.tv/c1", some 900, "Alice"⟩

def sB : Clip := ⟨"c2", "https://clips.twitch.tv/c2", some 700, "Bob"⟩

def sC : Clip := ⟨"c3", "https://clips.twitch.tv/c3", some 1500, "Caro"⟩

/-- Clips with tied view counts, for the stability checks. -/
def dA : Clip := ⟨"d1", "https://clips.twitch.tv/d1", some 5, "A"⟩

def dB : Clip := ⟨"d2", "https://clips.twitch.tv/d2", some 5, "B"⟩

def dC : Clip := ⟨"d3", "https://clips.twitch.tv/d3", some 9, "C"⟩

def dD : Clip := ⟨"d4", "https://clips.twitch.tv/d4", some 5, "D"⟩

/-- Clips lacking the `view_count` field. -/
def cNoViews : Clip := ⟨"nv", "https://clips.twitch.tv/nv", none, "NV"⟩

def cNoViews2 : Clip := ⟨"nv2", "https://clips.twitch.tv/nv2", none, "NV2"⟩

def cNoViews3 : Clip := ⟨"nv3", "https://clips.twitch.tv/nv3", none, "NV3"⟩

def cOk : Clip := ⟨"ok", "https://clips.twitch.tv/ok", some 1000, "OK"⟩

/-- A Drive backend with no folders. -/
def emptyDrive : DriveState := ⟨[], 1⟩

/-- A platform oracle where every login resolves and every broadcaster has a
popular recent clip: a world with plenty of live channels to harvest from. -/
def apiLive : TwitchAPI :=
  { users := fun _ => some ("u1", "StreamerOne"),
    clipsFor := fun _ => [⟨"clipX", "https://clips.twitch.tv/clipX", some 5000⟩] }

/-- A platform oracle where nothing resolves. -/
def apiBare : TwitchAPI :=
  { users := fun _ => none, clipsFor := fun _ => [] }

/-! ### Claim theorems -/

/-- C1: the claim states the Destination Path Resolver is idempotent — the
second identical call returns the same leaf identifier and creates zero new
folders.  The code contradicts this: because the name fragment of the
`ensure_folder` query is not an f-string, the lookup searches for the literal
name `{title}` and never finds the folder created by the first call.  This
theorem evaluates the model at the failing input: on an initially empty
backend the first resolution creates 3 folders, and the second resolution
with identical inputs creates 3 more and returns a different leaf
identifier. -/
theorem resolver_not_idempotent_at_failing_input :
    (resolveDest emptyDrive 0 "24-05-01").2.folders.length = 3
    ∧ (resolveDest (resolveDest emptyDrive 0 "24-05-01").2 0 "24-05-01").1
        ≠ (resolveDest emptyDrive 0 "24-05-01").1
    ∧ (resolveDest (resolveDest emptyDrive 0 "24-05-01").2 0 "24-05-01").2.folders.length = 6 := by
  decide

/-- C2 counterexample: the claim says a failure while uploading one file does
not abort delivery of the remaining files.  In the code the upload loop has no
per-item exception handling, so with files `a, b, c` where only `b` fails,
`a` is delivered, the loop aborts at `b`, and `c` — which would succeed — is
never attempted. -/
theorem delivery_abort_cex :
    uploadFiles (fun s => s == "b.mp4") ["a.mp4", "b.mp4", "c.mp4"]
      = (["a.mp4"], some "b.mp4")
    ∧ "c.mp4" ∉ (uploadFiles (fun s => s == "b.mp4") ["a.mp4", "b.mp4", "c.mp4"]).1 := by
  decide

/-- C2 amended: a failure while writing one AcquiredFile aborts delivery of
all remaining files: the upload loop delivers exactly the prefix of files
before the first failure, the failing file's exception propagates, and no
later file is attempted. -/
theorem delivery_aborts_at_first_failure (upFails : String → Bool)
    (pre post : List String) (f : String)
    (hpre : ∀ s ∈ pre, upFails s = false) (hf : upFails f = true) :
    uploadFiles upFails (pre ++ f :: post) = (pre, some f) := by
  induction pre with
  | nil => simp [uploadFiles, hf]
  | cons a as ih =>
    have ha : upFails a = false := hpre a (List.mem_cons_self a as)
    have ih' := ih fun s hs => hpre s (List.mem_cons_of_mem a hs)
    simp [uploadFiles, ha, ih']

/-- C2 witness: the amended delivery theorem applied at a concrete input. -/
theorem delivery_aborts_witness :
    uploadFiles (fun s => s == "x.mp4") ["ok1.mp4", "x.mp4", "ok2.mp4"]
      = (["ok1.mp4"], some "x.mp4") :=
  delivery_aborts_at_first_failure (fun s => s == "x.mp4") ["ok1.mp4"] ["ok2.mp4"]
    "x.mp4" (by decide) (by decide)

/-- C3 counterexample: the claim says that with no explicit creator list
configured, Discovery queries currently-live channels and produces a
non-trivial candidate pool.  In the code an empty `CREATORS` list simply makes
the discovery loop run zero times: even against a platform where every login
resolves and every broadcaster has a 5000-view clip, the candidate pool is
empty, while the same platform with one configured login does yield
candidates — so no top-N live mode exists. -/
theorem no_live_mode_cex :
    collectClips apiLive 800 [] = []
    ∧ collectClips apiLive 800 ["streamerone"] ≠ [] := by
  exact ⟨rfl, by decide⟩

/-- C3 amended: when no explicit creator list is configured, Discovery
iterates over an empty creator list and yields zero candidates, whatever the
platform would answer; the code has no top-N live mode. -/
theorem discovery_empty_without_creators (api : TwitchAPI) (thr : Int) :
    collectClips api thr [] = [] := rfl

/-- C3 witness: the amended discovery theorem applied at a concrete input. -/
theorem discovery_empty_witness : collectClips apiBare 800 [] = [] :=
  discovery_empty_without_creators apiBare 800

/-- C4: for every configured popularity threshold and every candidate pool,
when Selection completes, every surviving candidate carries a view count and
that view count is at least the threshold. -/
theorem selection_threshold_sound (thr : Int) (limit : Nat) (pool out : List Clip)
    (hok : selectClips thr limit pool = Except.ok out) :
    ∀ c ∈ out, ∃ v : Nat, c.view_count = some v ∧ thr ≤ (v : Int) := by
  obtain ⟨hall, hout⟩ := selectClips_eq_ok hok
  intro c hc
  have hsorted : c ∈ sortClipsDesc (filterClips thr pool) :=
    (List.take_sublist limit _).subset (hout ▸ hc)
  have hmem : c ∈ filterClips thr pool :=
    (perm_sortClipsDesc _).mem_iff.mp hsorted
  obtain ⟨v, hv⟩ := Option.isSome_iff_exists.mp (hall c hmem)
  refine ⟨v, hv, ?_⟩
  have hthr := (mem_filterClips.mp hmem).2
  rw [viewD, hv, Option.getD_some] at hthr
  exact hthr

/-- C4 witness: the threshold theorem applied to Scenario A of the spec
(threshold 800, views 900/700/1500, limit 12, selected `[c3, c1]`). -/
theorem selection_threshold_witness :
    selectClips 800 12 [sA, sB, sC] = Except.ok [sC, sA]
    ∧ ∃ v : Nat, sC.view_count = some v ∧ (800 : Int) ≤ (v : Int) :=
  ⟨rfl, selection_threshold_sound 800 12 [sA, sB, sC] [sC, sA] rfl sC
    (List.mem_cons_self sC [sA])⟩

/-- C5: for every input candidate pool, the sequence produced by Selection has
length at most the configured maximum batch size. -/
theorem selection_length_bounded (thr : Int) (limit : Nat) (pool out : List Clip)
    (hok : selectClips thr limit pool = Except.ok out) :
    out.length ≤ limit := by
  obtain ⟨-, hout⟩ := selectClips_eq_ok hok
  rw [hout]
  exact List.length_take_le limit _

/-- C5 witness: the length bound applied at a pool of three clips with batch
limit 1. -/
theorem selection_length_witness : ([sC] : List Clip).length ≤ 1 :=
  selection_length_bounded 800 1 [sA, sB, sC] [sC] rfl

/-- C6: when Selection completes, (i) if the pool's view counts are pairwise
distinct the output is strictly descending by view count, (ii) the output is
the truncation of the stable descending sort of the filtered pool, and
(iii) for every view-count value the candidates carrying that value appear in
the sorted pool exactly in their original discovery order (stability). -/
theorem selection_order_strict_and_stable (thr : Int) (limit : Nat)
    (pool out : List Clip) (hok : selectClips thr limit pool = Except.ok out) :
    ((pool.Pairwise fun a b => viewD a ≠ viewD b) →
        out.Pairwise fun a b => viewD b < viewD a)
    ∧ out = (sortClipsDesc (filterClips thr pool)).take limit
    ∧ ∀ v : Nat, (sortClipsDesc (filterClips thr pool)).filter (fun c => viewD c == v)
        = (filterClips thr pool).filter (fun c => viewD c == v) := by
  obtain ⟨hall, hout⟩ := selectClips_eq_ok hok
  refine ⟨?_, hout, fun v => filter_view_sortClipsDesc v _⟩
  intro hne
  have hne1 : (filterClips thr pool).Pairwise fun a b => viewD a ≠ viewD b :=
    hne.sublist (List.filter_sublist pool)
  have hne2 : (sortClipsDesc (filterClips thr pool)).Pairwise
      fun a b => viewD a ≠ viewD b :=
    ((perm_sortClipsDesc (filterClips thr pool)).pairwise_iff
      fun hab => Ne.symm hab).mpr hne1
  have hge := pairwise_ge_sortClipsDesc (filterClips thr pool)
  have hlt : (sortClipsDesc (filterClips thr pool)).Pairwise
      fun a b => viewD b < viewD a :=
    (hge.and hne2).imp fun h => Nat.lt_of_le_of_ne h.1 (Ne.symm h.2)
  rw [hout]
  exact hlt.sublist (List.take_sublist limit _)

/-- C6 witness: strict descending order on the distinct-views Scenario A pool,
and stability at the tied view count 5 of the tied pool, both by applying the
order theorem at concrete inputs. -/
theorem selection_order_witness :
    ([sC, sA] : List Clip).Pairwise (fun a b => viewD b < viewD a)
    ∧ (sortClipsDesc (filterClips 0 [dA, dC, dB, dD])).filter (fun c => viewD c == 5)
        = (filterClips 0 [dA, dC, dB, dD]).filter (fun c => viewD c == 5) :=
  ⟨(selection_order_strict_and_stable 800 12 [sA, sB, sC] [sC, sA] rfl).1 (by decide),
   (selection_order_strict_and_stable 0 12 [dA, dC, dB, dD] [dC, dA, dB, dD] rfl).2.2 5⟩

/-- C7: when the fetch fails for exactly one of the selected candidates,
Acquisition yields exactly the other N−1 files in order, hence one fewer than
the selection, and (when any remain) the run reaches Delivery with exactly
those files as input instead of aborting. -/
theorem acquisition_single_failure_isolated (dlFails : Clip → Bool)
    (upFails : String → Bool) (rootId : Nat) (todayStr : String) (st0 : DriveState)
    (pre post : List Clip) (bad : Clip) (hbad : dlFails bad = true)
    (hpre : ∀ c ∈ pre, dlFails c = false) (hpost : ∀ c ∈ post, dlFails c = false) :
    downloadClips dlFails (pre ++ bad :: post) = (pre ++ post).map fileNameOf
    ∧ (downloadClips dlFails (pre ++ bad :: post)).length + 1
        = (pre ++ bad :: post).length
    ∧ (pre ++ post ≠ [] →
        (runDeliverStages dlFails (fun _ => none) upFails rootId todayStr st0
            (pre ++ bad :: post) []).deliveryInput
          = some ((pre ++ post).map fileNameOf)) := by
  have hfil : (pre ++ bad :: post).filter (fun c => !dlFails c) = pre ++ post := by
    rw [List.filter_append, List.filter_cons]
    rw [List.filter_eq_self.mpr fun a ha => by simp [hpre a ha],
      List.filter_eq_self.mpr fun a ha => by simp [hpost a ha]]
    simp [hbad]
  have hdl : downloadClips dlFails (pre ++ bad :: post) = (pre ++ post).map fileNameOf := by
    rw [downloadClips_eq, hfil]
  refine ⟨hdl, ?_, ?_⟩
  · rw [hdl]
    simp [List.length_append]
    omega
  · intro hne
    have hmapne : (pre ++ post).map fileNameOf ≠ [] := by
      simpa using hne
    unfold runDeliverStages
    rw [hdl]
    simp only [downloadVods, List.append_nil]
    rw [if_neg (by simpa [List.isEmpty_iff] using hmapne)]

/-- C7 witness: of three selected clips exactly the middle one fails to
download; the other two are acquired and handed to Delivery. -/
theorem acquisition_single_failure_witness :
    (runDeliverStages (fun c => c.cid == "c2") (fun _ => none) (fun _ => false) 0
        "24-05-01" emptyDrive [sA, sB, sC] []).deliveryInput
      = some ([sA, sC].map fileNameOf)
    ∧ (downloadClips (fun c => c.cid == "c2") [sA, sB, sC]).length + 1 = 3 :=
  ⟨(acquisition_single_failure_isolated (fun c => c.cid == "c2") (fun _ => false) 0
      "24-05-01" emptyDrive [sA] [sC] sB (by decide) (by decide) (by decide)).2.2
      (by decide),
   (acquisition_single_failure_isolated (fun c => c.cid == "c2") (fun _ => false) 0
      "24-05-01" emptyDrive [sA] [sC] sB (by decide) (by decide) (by decide)).2.1⟩

/-- C8 counterexample: the claim says that whenever Discovery yields zero
candidates the run exits cleanly with no folders created, no fetch and no
delivery.  In the code the YouTube loop still runs: with zero candidates but
one configured supplementary source whose fetch succeeds, three destination
folders are created and the file is delivered. -/
theorem zero_candidates_still_delivers_cex :
    (runDeliverStages (fun _ => false) (fun _ => some "YT-123456.mp4") (fun _ => false) 0
        "24-05-01" emptyDrive [] ["https://youtube.example/chan"]).driveFinal.folders.length = 3
    ∧ (runDeliverStages (fun _ => false) (fun _ => some "YT-123456.mp4") (fun _ => false) 0
        "24-05-01" emptyDrive [] ["https://youtube.example/chan"]).deliveryInput
      = some ["YT-123456.mp4"]
    ∧ (runDeliverStages (fun _ => false) (fun _ => some "YT-123456.mp4") (fun _ => false) 0
        "24-05-01" emptyDrive [] ["https://youtube.example/chan"]).uploaded
      = ["YT-123456.mp4"] := by
  decide

/-- C8 amended: whenever Discovery yields zero candidates AND supplementary
acquisition produces no files (in particular when no supplementary source is
configured), the run exits cleanly at the `if not downloaded` check: the Drive
state is untouched, no folder is resolved and no delivery is attempted. -/
theorem zero_candidates_clean_exit (dlFails : Clip → Bool)
    (ytResult : String → Option String) (upFails : String → Bool) (rootId : Nat)
    (todayStr : String) (st0 : DriveState) (yts : List String)
    (hyt : downloadVods ytResult yts = []) :
    runDeliverStages dlFails ytResult upFails rootId todayStr st0 [] yts =
      { deliveryInput := none, driveFinal := st0, dateFolderId := none,
        uploaded := [], uploadAborted := none } := by
  unfold runDeliverStages
  rw [hyt]
  simp [downloadClips]

/-- C8 witness: clean exit on zero candidates and no supplementary sources. -/
theorem zero_candidates_clean_exit_witness :
    runDeliverStages (fun _ => false) (fun _ => none) (fun _ => false) 0 "24-05-01"
        emptyDrive [] [] =
      { deliveryInput := none, driveFinal := emptyDrive, dateFolderId := none,
        uploaded := [], uploadAborted := none } :=
  zero_candidates_clean_exit (fun _ => false) (fun _ => none) (fun _ => false) 0
    "24-05-01" emptyDrive [] rfl

/-- C9 counterexample: the claim says a clip record lacking the view-count
field is rejected as a recoverable per-item error rather than silently given a
default.  In the code the filter silently defaults the missing field to 0:
with threshold 0 a clip without `view_count` passes the filter (it is not
rejected), after which the ranking step aborts the entire selection; with
threshold 800 it is dropped without any per-item error path. -/
theorem missing_field_not_rejected_cex :
    filterClips 0 [cNoViews] = [cNoViews]
    ∧ selectClips 0 12 [cNoViews] = Except.error ()
    ∧ filterClips 800 [cNoViews] = [] :=
  ⟨rfl, rfl, rfl⟩

/-- C9 amended: absence of the view-count field is silently replaced by the
default 0 in the inclusion filter: a clip without the field passes the filter
exactly when the threshold is at most 0, and whenever it passes, Selection as
a whole aborts (an uncaught error, not a recoverable per-item one). -/
theorem missing_field_silent_default (thr : Int) (pool : List Clip) (c : Clip)
    (hmem : c ∈ pool) (hnone : c.view_count = none) :
    (c ∈ filterClips thr pool ↔ thr ≤ 0)
    ∧ (thr ≤ 0 → ∀ limit, selectClips thr limit pool = Except.error ()) := by
  have hv : ((viewD c : Nat) : Int) = 0 := by simp [viewD, hnone]
  constructor
  · rw [mem_filterClips, hv]
    simp [hmem]
  · intro hthr limit
    exact selectClips_error_of_missing
      (mem_filterClips.mpr ⟨hmem, by rw [hv]; exact hthr⟩) hnone

/-- C9 witness: the silent-default theorem applied at a concrete clip without
a view count and a negative threshold. -/
theorem missing_field_silent_default_witness :
    selectClips (-3) 12 [cNoViews2] = Except.error ()
    ∧ cNoViews2 ∈ filterClips (-3) [cNoViews2] :=
  ⟨(missing_field_silent_default (-3) [cNoViews2] cNoViews2 (by decide) rfl).2
      (by decide) 12,
   (missing_field_silent_default (-3) [cNoViews2] cNoViews2 (by decide) rfl).1.mpr
      (by decide)⟩

/-- C10: if the threshold is 0 or negative, any pool clip lacking the
view-count field passes the inclusion filter and makes the ranking step abort
the whole selection with the modelled KeyError; conversely, whenever every
filtered clip carries a view count, Selection is total and returns a result. -/
theorem selection_keyerror_on_missing_view (thr : Int) (limit : Nat)
    (pool : List Clip) :
    (∀ c ∈ pool, thr ≤ 0 → c.view_count = none →
        c ∈ filterClips thr pool ∧ selectClips thr limit pool = Except.error ())
    ∧ ((∀ c ∈ filterClips thr pool, c.view_count.isSome = true) →
        ∃ out, selectClips thr limit pool = Except.ok out) := by
  constructor
  · intro c hc hthr hnone
    have hmem : c ∈ filterClips thr pool := by
      refine mem_filterClips.mpr ⟨hc, ?_⟩
      have hv : ((viewD c : Nat) : Int) = 0 := by simp [viewD, hnone]
      rw [hv]
      exact hthr
    exact ⟨hmem, selectClips_error_of_missing hmem hnone⟩
  · intro h
    exact ⟨_, selectClips_ok_of_all_some h⟩

/-- C10 witness: with threshold 0 a view-count-less clip crashes the run,
while with threshold 800 the same pool selects fine because the offending clip
is filtered out. -/
theorem selection_keyerror_witness :
    (cNoViews3 ∈ filterClips 0 [cOk, cNoViews3]
      ∧ selectClips 0 12 [cOk, cNoViews3] = Except.error ())
    ∧ ∃ out, selectClips 800 12 [cOk, cNoViews3] = Except.ok out :=
  ⟨(selection_keyerror_on_missing_view 0 12 [cOk, cNoViews3]).1 cNoViews3
      (by decide) (by decide) rfl,
   (selection_keyerror_on_missing_view 800 12 [cOk, cNoViews3]).2 (by decide)⟩

end FarmBot
